import Mathlib

/-!
Verification of the `nrt.data` sample-dataset access module
(`src/nrt/data/__init__.py`) against its natural-language specification.

The module is a thin Python layer: a pooch-based fetch cache (`GOODBOY`),
a suffix-dispatching loader (`_load`), per-dataset accessor functions, a
lazy remote zarr accessor (`germany_zarr`), a JSON lookup-table loader
(`mre_crit_table`) and three deprecation shims.  Pure structure (the
registry literal, the suffix dispatch, the warning messages, the absence
of any validation or caching in `mre_crit_table`) is embedded directly
from the source.  External collaborators that are not part of this
repository (pooch's fetch, rasterio's band read, xarray's zarr opening)
are modelled from the spec, each marked `Modelled from the spec:` in its
doc comment.
-/

namespace NrtData

/-- Boolean suffix test on strings, the embedding of Python's
`str.endswith` used by `_load`'s dispatch. -/
def strEndsWith (s suf : String) : Bool :=
  suf.data.isSuffixOf s.data

/-- Boolean infix test on character lists (Python's `in` on strings),
used to state that a warning message names the old and new call paths. -/
def listIsInfix (pat : List Char) : List Char → Bool
  | [] => pat.isEmpty
  | c :: t => pat.isPrefixOf (c :: t) || listIsInfix pat t

/-- The error taxonomy of the spec (section 7).  `unknownAsset` is
pooch's ValueError on an unregistered basename; `unsupportedKind` is the
spec's `UnsupportedKindError`, which the source never raises. -/
inductive DataErr where
  | unknownAsset
  | fetchErr
  | integrityErr
  | storageErr
  | decodeErr
  | unsupportedKind
deriving DecidableEq, Repr

/-! ## Asset registry (`GOODBOY`, source lines 32-40)

`pooch.create` is given a registry mapping each basename to its expected
hash; in the source every hash is `None`, embedded here as `none`. -/

/-- The registry literal of `GOODBOY`: basename, optional integrity
token.  Taken verbatim from the source; every token is `None`. -/
def GOODBOY_registry : List (String × Option (List Nat)) :=
  [("sentinel2_cube_subset_romania_10m.nc", none),
   ("sentinel2_cube_subset_romania_20m.nc", none),
   ("tree_cover_density_2018_romania.tif", none)]

/-- The cache directory name passed to `pooch.os_cache` in the source. -/
def cacheRootName : String := "nrt-validate"

/-- The local path pooch resolves a registered basename to (cache root
joined with the basename). -/
def cachePath (name : String) : String :=
  cacheRootName ++ "/" ++ name

/-- Look a basename up in a registry; `some tok` means registered with
optional integrity token `tok`. -/
def lookupReg (registry : List (String × Option (List Nat))) (name : String) :
    Option (Option (List Nat)) :=
  (registry.find? (fun p => p.1 == name)).map Prod.snd

/-- State of the on-disk cache directory plus a count of network
download operations performed (for the no-network-I/O claims). -/
structure FetchState where
  cache : List (String × List Nat)
  netOps : Nat
deriving DecidableEq, Repr

/-- Look a basename up in the cache directory. -/
def lookupCache (cache : List (String × List Nat)) (name : String) :
    Option (List Nat) :=
  (cache.find? (fun p => p.1 == name)).map Prod.snd

/-- Write a file into the cache directory, replacing any previous one. -/
def putCache (cache : List (String × List Nat)) (name : String)
    (bytes : List Nat) : List (String × List Nat) :=
  (name, bytes) :: cache.filter (fun p => p.1 != name)

/-- Modelled from the spec: the integrity token of a byte string.  The
spec treats the digest as an opaque content token; the identity digest is
the simplest faithful executable choice (compare exact content). -/
def digest (bytes : List Nat) : List Nat := bytes

/-- Modelled from the spec: the download-then-verify path of the fetch
cache (section 4.2) — download from the remote origin, persist under the
cache root, then verify when a token is configured.  `remote name = none`
models a network/transport failure (`FetchError`). -/
def downloadVerify (remote : String → Option (List Nat))
    (tok : Option (List Nat)) (s : FetchState) (name : String) :
    FetchState × Except DataErr String :=
  match remote name with
  | none => (s, .error .fetchErr)
  | some bytes =>
    let s1 : FetchState := ⟨putCache s.cache name bytes, s.netOps + 1⟩
    match tok with
    | none => (s1, .ok (cachePath name))
    | some t =>
      if digest bytes = t then (s1, .ok (cachePath name))
      else (s1, .error .integrityErr)

/-- Modelled from the spec: `GOODBOY.fetch` — pooch is an external
dependency, not under `src/`.  Unknown name fails with
`UnknownAssetError` before any I/O; a cached file is trusted as-is when
no token is configured, re-downloaded on token mismatch; a miss
downloads then verifies (section 4.2). -/
def fetch (registry : List (String × Option (List Nat)))
    (remote : String → Option (List Nat)) (s : FetchState) (name : String) :
    FetchState × Except DataErr String :=
  match lookupReg registry name with
  | none => (s, .error .unknownAsset)
  | some tok =>
    match lookupCache s.cache name with
    | none => downloadVerify remote tok s name
    | some bytes =>
      match tok with
      | none => (s, .ok (cachePath name))
      | some t =>
        if digest bytes = t then (s, .ok (cachePath name))
        else downloadVerify remote tok s name

/-- A registered name's cached file passes integrity verification: when
a token is configured the cached bytes must digest to it; when no token
is configured verification is disabled and an existing file is trusted
(spec section 4.2). -/
def passesVerification (registry : List (String × Option (List Nat)))
    (cache : List (String × List Nat)) (name : String) : Bool :=
  match lookupReg registry name, lookupCache cache name with
  | some (some t), some bytes => digest bytes == t
  | some none, some _ => true
  | _, _ => false

/-! ## Decoder dispatch (`_load`, source lines 43-58)

```python
def _load(f, **kwargs):
    file_path = GOODBOY.fetch(f)
    if f.endswith('.nc'):
        return xr.open_dataset(file_path, **kwargs)
    elif f.endswith('.tif'):
        with rasterio.open(file_path) as src:
            return src.read(1)
```

There is no `else` branch: a basename with any other suffix falls
through and the Python function returns `None`. -/

/-- A single-band raster file as the spec's decoder sees it: declared
dimensions, the sole band's pixels, and the file's metadata. -/
structure RasterFile where
  height : Nat
  width : Nat
  band1 : List (List Int)
  meta : List (String × String)
deriving DecidableEq, Repr

/-- Modelled from the spec: rasterio's full in-memory read of the sole
band (`src.read(1)`); rasterio is an external dependency, not under
`src/`.  For a known-good file the returned 2-D array is the band with
the file's declared dimensions. -/
def rasterReadBand1 (r : RasterFile) : List (List Int) := r.band1

/-- A raster file is known-good when its band matches its declared
dimensions (the spec's "file's declared dimensions"). -/
def rasterWellFormed (r : RasterFile) : Bool :=
  r.band1.length == r.height && r.band1.all (fun row => row.length == r.width)

/-- What `_load` returns after a successful fetch: an xarray dataset
handle (recording the path and keyword arguments the reader was opened
with), a raw 2-D array, or Python's implicit `None`. -/
inductive LoadResult where
  | ncDataset (path : String) (kwargs : List (String × String))
  | tifArray (a : List (List Int))
  | pyNone
deriving DecidableEq, Repr

/-- The suffix dispatch of `_load` (lines 54-58): `.nc` opens an xarray
dataset with the forwarded kwargs; `.tif` opens rasterio WITHOUT the
kwargs and returns `src.read(1)`; anything else falls through to
Python's implicit `None`.  `raster` maps a local path to its decoded
raster file. -/
def loadDispatch (f : String) (filePath : String)
    (kwargs : List (String × String)) (raster : String → RasterFile) :
    LoadResult :=
  if strEndsWith f ".nc" then .ncDataset filePath kwargs
  else if strEndsWith f ".tif" then .tifArray (rasterReadBand1 (raster filePath))
  else .pyNone

/-- A call to an underlying decoder, with the keyword arguments it
received. -/
structure DecoderCall where
  reader : String
  path : String
  kwargs : List (String × String)
deriving DecidableEq, Repr

/-- The decoder calls `_load`'s dispatch makes: `xr.open_dataset` gets
the kwargs verbatim (line 55); `rasterio.open` is called with the path
alone — the source passes no kwargs on line 57. -/
def loadDecoderCalls (f : String) (filePath : String)
    (kwargs : List (String × String)) : List DecoderCall :=
  if strEndsWith f ".nc" then [⟨"xr.open_dataset", filePath, kwargs⟩]
  else if strEndsWith f ".tif" then [⟨"rasterio.open", filePath, []⟩]
  else []

/-- `_load` itself: fetch through the cache, then dispatch on suffix. -/
def pyLoad (registry : List (String × Option (List Nat)))
    (remote : String → Option (List Nat)) (s : FetchState)
    (raster : String → RasterFile) (f : String)
    (kwargs : List (String × String)) :
    FetchState × Except DataErr LoadResult :=
  match fetch registry remote s f with
  | (s1, .error e) => (s1, .error e)
  | (s1, .ok filePath) => (s1, .ok (loadDispatch f filePath kwargs raster))

/-! ## Public accessors (source lines 61-151) -/

/-- `romania_10m(**kwargs)`: `_load` of the 10 m cube basename with the
kwargs forwarded. -/
def romania_10m (registry : List (String × Option (List Nat)))
    (remote : String → Option (List Nat)) (s : FetchState)
    (raster : String → RasterFile) (kwargs : List (String × String)) :
    FetchState × Except DataErr LoadResult :=
  pyLoad registry remote s raster "sentinel2_cube_subset_romania_10m.nc" kwargs

/-- `romania_20m(**kwargs)`: `_load` of the 20 m cube basename with the
kwargs forwarded. -/
def romania_20m (registry : List (String × Option (List Nat)))
    (remote : String → Option (List Nat)) (s : FetchState)
    (raster : String → RasterFile) (kwargs : List (String × String)) :
    FetchState × Except DataErr LoadResult :=
  pyLoad registry remote s raster "sentinel2_cube_subset_romania_20m.nc" kwargs

/-- `romania_forest_cover_percentage()`: accepts no keyword arguments
and calls `_load` with the `.tif` basename alone (source line 151). -/
def romania_forest_cover_percentage
    (registry : List (String × Option (List Nat)))
    (remote : String → Option (List Nat)) (s : FetchState)
    (raster : String → RasterFile) :
    FetchState × Except DataErr LoadResult :=
  pyLoad registry remote s raster "tree_cover_density_2018_romania.tif" []

/-! ## Lazy remote store (`germany_zarr`, source lines 91-145) -/

/-- The fixed zarr store URL of `germany_zarr` (source line 143). -/
def germany_zarr_url : String :=
  "https://jeodpp.jrc.ec.europa.eu/ftp/jrc-opendata/FOREST/NRT/NRT-DATA/VER1-0/germany.zarr"

/-- The single reader call `germany_zarr` makes:
`xr.open_zarr(url, **kwargs)` with the kwargs forwarded verbatim. -/
def germany_zarr_call (kwargs : List (String × String)) : DecoderCall :=
  ⟨"xr.open_zarr", germany_zarr_url, kwargs⟩

/-- A variable of the remote chunked store: whether it is
integer-encoded (reflectance-like), its raw stored values, and the byte
size of its chunk payloads. -/
structure ZarrVar where
  intEncoded : Bool
  values : List Int
  payloadBytes : Nat
deriving DecidableEq, Repr

/-- The remote chunked store: named variables, the fixed scale factor
and integer no-data sentinel recorded in its metadata, and the byte size
of the metadata itself. -/
structure ZarrStore where
  vars : List (String × ZarrVar)
  scale_factor : ℚ
  nodata : Int
  metadataBytes : Nat

/-- The lazily-opened handle: the declared variable set and the bytes
transferred so far by the open itself. -/
structure ZarrHandle where
  varNames : List String
  transferredBytes : Nat
deriving DecidableEq, Repr

/-- Modelled from the spec: the mask-and-scale decoding xarray applies
on open — the no-data sentinel becomes the floating-point missing-value
marker (`none`, i.e. NaN) and every other integer is rescaled by the
fixed scale factor. -/
def maskAndScale (scale : ℚ) (nodata : Int) (v : Int) : Option ℚ :=
  if v = nodata then none else some (scale * v)

/-- Modelled from the spec: opening the remote chunked store
(`xr.open_zarr`; xarray is an external dependency, not under `src/`).
The open transfers only the store's metadata, never chunk payloads. -/
def open_remote_store (st : ZarrStore) : ZarrHandle :=
  { varNames := st.vars.map Prod.fst, transferredBytes := st.metadataBytes }

/-- Modelled from the spec: materializing one variable of the opened
store transfers that variable's payload and applies the mask-and-scale
decoding to integer-encoded variables. -/
def materializeVar (st : ZarrStore) (name : String) :
    Option (List (Option ℚ) × Nat) :=
  (st.vars.find? (fun p => p.1 == name)).map
    (fun p =>
      (if p.2.intEncoded then p.2.values.map (maskAndScale st.scale_factor st.nodata)
       else p.2.values.map (fun v => some (v : ℚ)),
       p.2.payloadBytes))

/-! ## Lookup table loader (`mre_crit_table`, source lines 154-179)

```python
def mre_crit_table():
    with open(os.path.join(DATA_DIR, "mreCritValTable.json")) as crit:
        crit_table = json.load(crit)
    return crit_table
```

The body opens the fixed JSON file, parses it, and returns the parsed
document verbatim.  It performs no validation whatsoever and keeps no
cache. -/

/-- A parsed JSON document.  Number payloads are modelled as rationals;
only the nesting structure and sequence lengths matter to the claims. -/
inductive Json where
  | num (q : ℚ)
  | str (s : String)
  | arr (xs : List Json)
  | obj (fields : List (String × Json))
  | null
  | bool (b : Bool)

/-- Lookup of a key in a JSON object's field list. -/
def jsonLookup (fields : List (String × Json)) (k : String) : Option Json :=
  (fields.find? (fun p => p.1 == k)).map Prod.snd

/-- The CriticalValueTable invariant of spec section 3: `sig_levels` is
present as a sequence, and every window → period → functional leaf is a
sequence whose length equals `len(sig_levels)`. -/
def leafInvariant (j : Json) : Bool :=
  match j with
  | .obj fs =>
    match jsonLookup fs "sig_levels" with
    | some (.arr sl) =>
      fs.all (fun p =>
        p.1 == "sig_levels" ||
        (match p.2 with
         | .obj ws => ws.all (fun w =>
             match w.2 with
             | .obj ps => ps.all (fun q =>
                 match q.2 with
                 | .arr leaf => leaf.length == sl.length
                 | _ => false)
             | _ => false)
         | _ => false))
    | _ => false
  | _ => false

/-- `mre_crit_table` on a parse outcome: a malformed file (`none`, where
`json.load` raises) propagates as a decode failure; a parsed document is
returned verbatim — the source validates nothing (lines 177-179). -/
def mre_crit_table (doc : Option Json) : Except DataErr Json :=
  match doc with
  | none => .error .decodeErr
  | some j => .ok j

/-- The loader as spec section 4.6 describes it, for comparison with
`mre_crit_table`: validate `sig_levels` presence and every leaf's
length, failing with `DecodeError` on violation. -/
def load_critical_value_table_spec (doc : Option Json) : Except DataErr Json :=
  match doc with
  | none => .error .decodeErr
  | some j => if leafInvariant j then .ok j else .error .decodeErr

/-- The path `mre_crit_table` opens: the module directory joined with
the fixed file name (source line 177). -/
def mreCritValTablePath (dataDir : String) : String :=
  dataDir ++ "/mreCritValTable.json"

/-- One call of `mre_crit_table` threaded through the module state: the
source module keeps no loader cache, so the state it reads and writes is
trivial (`Unit`); the result is recomputed from the file's current
parse outcome on every call. -/
def mre_crit_table_call (s : Unit) (dataDir : String)
    (fs : String → Option Json) : Unit × Except DataErr Json :=
  (s, mre_crit_table (fs (mreCritValTablePath dataDir)))

/-! ## Deprecation shims (`make_ts`, `make_cube_parameters`,
`make_cube`, source lines 182-212)

Each shim calls `warnings.warn(msg, DeprecationWarning, stacklevel=2)`
— which by Python semantics emits a non-fatal warning — and then
returns the relocated function applied to `*args, **kwargs` unchanged.
The relocated functions live in `nrt.data.simulate`, outside this file,
so the delegate is abstract. -/

/-- A warning as emitted by `warnings.warn`: message, category, and
whether emitting it aborts the call (for `warnings.warn` it never
does). -/
structure PyWarning where
  message : String
  category : String
  fatal : Bool
deriving DecidableEq, Repr

/-- The warning `make_ts` emits, message verbatim from source lines
184-186. -/
def make_ts_warning : PyWarning :=
  { message := "The function \x27make_ts\x27 has been moved to \x27nrt.data.simulate\x27. Please update your imports to \x27from nrt.data.simulate import make_ts\x27. This import path will be deprecated in future versions.",
    category := "DeprecationWarning",
    fatal := false }

/-- The warning `make_cube_parameters` emits, message verbatim from
source lines 195-197. -/
def make_cube_parameters_warning : PyWarning :=
  { message := "The function \x27make_cube_parameters\x27 has been moved to \x27nrt.data.simulate\x27. Please update your imports to \x27from nrt.data.simulate import make_cube_parameters\x27. This import path will be deprecated in future versions.",
    category := "DeprecationWarning",
    fatal := false }

/-- The warning `make_cube` emits, message verbatim from source lines
206-208. -/
def make_cube_warning : PyWarning :=
  { message := "The function \x27make_cube\x27 has been moved to \x27nrt.data.simulate\x27. Please update your imports to \x27from nrt.data.simulate import make_cube\x27. This import path will be deprecated in future versions.",
    category := "DeprecationWarning",
    fatal := false }

/-- `make_ts(*args, **kwargs)`: append the deprecation warning to the
emitted-warnings stream and return the delegate (`simulate.make_ts`)
applied to the arguments unchanged. -/
def make_ts {α β : Type} (delegate : α → β) (emitted : List PyWarning)
    (args : α) : List PyWarning × β :=
  (emitted ++ [make_ts_warning], delegate args)

/-- `make_cube_parameters(*args, **kwargs)`: warning, then verbatim
delegation. -/
def make_cube_parameters {α β : Type} (delegate : α → β)
    (emitted : List PyWarning) (args : α) : List PyWarning × β :=
  (emitted ++ [make_cube_parameters_warning], delegate args)

/-- `make_cube(*args, **kwargs)`: warning, then verbatim delegation. -/
def make_cube {α β : Type} (delegate : α → β) (emitted : List PyWarning)
    (args : α) : List PyWarning × β :=
  (emitted ++ [make_cube_warning], delegate args)

/-! ## Concrete sample values used by counterexamples and witnesses -/

/-- A raster file used in counterexamples. -/
def rasterA : RasterFile :=
  ⟨1, 1, [[0]], [("crs", "EPSG:3035")]⟩

/-- Like `rasterA` but with different metadata and identical pixels. -/
def rasterB : RasterFile :=
  ⟨1, 1, [[0]], [("crs", "EPSG:4326")]⟩

/-- A critical-value document violating the length invariant:
`sig_levels` has two entries but the single leaf has one. -/
def badCritDoc : Json :=
  .obj [("sig_levels", .arr [.num 0, .num 1]),
        ("0.25", .obj [("2", .obj [("max", .arr [.num 5])])])]

/-- A well-formed critical-value document: every leaf has length
`len(sig_levels) = 2`. -/
def goodCritDoc : Json :=
  .obj [("sig_levels", .arr [.num 0, .num 1]),
        ("0.25", .obj [("2", .obj [("max", .arr [.num 5, .num 6]),
                                   ("range", .arr [.num 7, .num 8])])])]

/-! ## Claims -/

/-- C1, counterexample: with a registry entry whose basename ends in
neither `.nc` nor `.tif`, `_load` fetches the file and then falls
through both suffix branches, returning Python's implicit `None` — a
successful return, not an `UnsupportedKindError`. -/
theorem C1_load_unsupported_counterexample :
    pyLoad [("asset.dat", none)] (fun _ => some [7]) ⟨[], 0⟩
        (fun _ => rasterA) "asset.dat" []
      = (⟨[("asset.dat", [7])], 1⟩, .ok .pyNone)
    ∧ (Except.ok LoadResult.pyNone : Except DataErr LoadResult)
        ≠ .error .unsupportedKind :=
  ⟨rfl, fun h => Except.noConfusion h⟩

/-- C1, amended: `_load`'s dispatch on a basename ending in neither
`.nc` nor `.tif` raises nothing and produces Python `None` (no decoded
value); every basename of the shipped registry has a supported suffix,
so the fall-through is unreachable for registered assets. -/
theorem C1_load_unsupported_amended (f path : String)
    (kwargs : List (String × String)) (raster : String → RasterFile)
    (hnc : strEndsWith f ".nc" = false)
    (htif : strEndsWith f ".tif" = false) :
    loadDispatch f path kwargs raster = .pyNone
    ∧ GOODBOY_registry.all
        (fun p => strEndsWith p.1 ".nc" || strEndsWith p.1 ".tif") = true := by
  refine ⟨?_, by decide⟩
  unfold loadDispatch
  rw [hnc, htif]
  rfl

/-- C1, witness for the amended theorem at a concrete unsupported
basename. -/
theorem C1_load_unsupported_witness :
    loadDispatch "asset.dat" "p" [] (fun _ => rasterA) = .pyNone
    ∧ GOODBOY_registry.all
        (fun p => strEndsWith p.1 ".nc" || strEndsWith p.1 ".tif") = true :=
  C1_load_unsupported_amended "asset.dat" "p" [] (fun _ => rasterA)
    (by decide) (by decide)

/-- C2, counterexample: on a document whose single leaf length (1)
differs from `len(sig_levels)` (2), `mre_crit_table` still returns the
document successfully — it validates nothing — whereas the loader the
spec describes fails with `DecodeError`. -/
theorem C2_crit_table_validation_counterexample :
    mre_crit_table (some badCritDoc) = .ok badCritDoc
    ∧ leafInvariant badCritDoc = false
    ∧ load_critical_value_table_spec (some badCritDoc) = .error .decodeErr
    ∧ mre_crit_table (some badCritDoc) ≠ .error .decodeErr := by
  refine ⟨rfl, by decide, rfl, ?_⟩
  intro h
  rw [mre_crit_table] at h
  exact Except.noConfusion h

/-- C2, amended: `mre_crit_table` performs no validation — it returns
the parsed document verbatim (so a well-formed document's table does
satisfy the length invariant, trivially), a malformed file fails with a
decode error, but a document violating the invariant is returned
successfully instead of failing with `DecodeError`. -/
theorem C2_crit_table_validation_amended (j : Json)
    (hwf : leafInvariant j = true) :
    mre_crit_table (some j) = .ok j
    ∧ mre_crit_table none = .error .decodeErr
    ∧ ∃ t, mre_crit_table (some j) = .ok t ∧ leafInvariant t = true :=
  ⟨rfl, rfl, j, rfl, hwf⟩

/-- C2, witness for the amended theorem at a concrete well-formed
document. -/
theorem C2_crit_table_validation_witness :
    mre_crit_table (some goodCritDoc) = .ok goodCritDoc
    ∧ mre_crit_table none = .error .decodeErr
    ∧ ∃ t, mre_crit_table (some goodCritDoc) = .ok t
        ∧ leafInvariant t = true :=
  C2_crit_table_validation_amended goodCritDoc (by decide)

/-- C3, counterexample: `_load` of the `.tif` asset with a non-empty
keyword configuration opens the raster decoder with NO keyword
arguments — the source calls `rasterio.open(file_path)` and drops
`kwargs` — so the kwargs are not forwarded verbatim to every underlying
decoder. -/
theorem C3_kwargs_forwarding_counterexample :
    loadDecoderCalls "tree_cover_density_2018_romania.tif"
        (cachePath "tree_cover_density_2018_romania.tif")
        [("masked", "True")]
      = [⟨"rasterio.open",
          cachePath "tree_cover_density_2018_romania.tif", []⟩]
    ∧ ([("masked", "True")] : List (String × String)) ≠ [] := by
  exact ⟨rfl, by decide⟩

/-- C3, amended: the `.nc` cube accessors and `germany_zarr` forward
their keyword configuration verbatim to the underlying reader and
return a dataset handle; the single-band raster path opens its decoder
with no keyword arguments (and its accessor accepts none), returning a
raw 2-D array. -/
theorem C3_kwargs_forwarding_amended (path : String)
    (kwargs : List (String × String)) :
    loadDecoderCalls "sentinel2_cube_subset_romania_10m.nc" path kwargs
      = [⟨"xr.open_dataset", path, kwargs⟩]
    ∧ loadDecoderCalls "sentinel2_cube_subset_romania_20m.nc" path kwargs
      = [⟨"xr.open_dataset", path, kwargs⟩]
    ∧ germany_zarr_call kwargs = ⟨"xr.open_zarr", germany_zarr_url, kwargs⟩
    ∧ loadDecoderCalls "tree_cover_density_2018_romania.tif" path kwargs
      = [⟨"rasterio.open", path, []⟩] :=
  ⟨rfl, rfl, rfl, rfl⟩

/-- C4, counterexample: two raster files with identical pixels but
different metadata decode to the same `_load` result, so the decode
result cannot contain the file's metadata — the source returns only
`src.read(1)`. -/
theorem C4_raster_metadata_counterexample :
    loadDispatch "tree_cover_density_2018_romania.tif" "p" []
        (fun _ => rasterA)
      = loadDispatch "tree_cover_density_2018_romania.tif" "p" []
        (fun _ => rasterB)
    ∧ rasterA.meta ≠ rasterB.meta := by
  exact ⟨rfl, by decide⟩

/-- C4, amended: decode of a known-good single-band raster file returns
the sole band fully read into memory as a 2-D array whose shape matches
the file's declared dimensions exactly; the file's metadata is not part
of the return value. -/
theorem C4_raster_decode_amended (f path : String)
    (kwargs : List (String × String)) (raster : String → RasterFile)
    (hnc : strEndsWith f ".nc" = false)
    (htif : strEndsWith f ".tif" = true)
    (hwf : rasterWellFormed (raster path) = true) :
    loadDispatch f path kwargs raster
      = .tifArray (rasterReadBand1 (raster path))
    ∧ (rasterReadBand1 (raster path)).length = (raster path).height
    ∧ ∀ row ∈ rasterReadBand1 (raster path),
        row.length = (raster path).width := by
  unfold rasterWellFormed at hwf
  simp only [Bool.and_eq_true, beq_iff_eq, List.all_eq_true] at hwf
  refine ⟨?_, hwf.1, hwf.2⟩
  unfold loadDispatch
  rw [hnc, htif]
  rfl

/-- C4, witness for the amended theorem at a concrete well-formed
raster file. -/
theorem C4_raster_decode_witness :
    loadDispatch "tree_cover_density_2018_romania.tif" "p" []
        (fun _ => rasterA)
      = .tifArray (rasterReadBand1 rasterA)
    ∧ (rasterReadBand1 rasterA).length = rasterA.height
    ∧ ∀ row ∈ rasterReadBand1 rasterA, row.length = rasterA.width :=
  C4_raster_decode_amended "tree_cover_density_2018_romania.tif" "p" []
    (fun _ => rasterA) (by decide) (by decide) (by decide)

/-- A file just written to the cache directory is found there. -/
theorem lookupCache_putCache (cache : List (String × List Nat))
    (name : String) (bytes : List Nat) :
    lookupCache (putCache cache name bytes) name = some bytes := by
  simp [lookupCache, putCache]

/-- Success characterization of the download-then-verify path: on
success the returned path is the cache path and the new cache holds the
downloaded bytes, which satisfy the configured token (when any). -/
theorem downloadVerify_ok_inv (remote : String → Option (List Nat))
    (tok : Option (List Nat)) (s s1 : FetchState) (name path : String)
    (h : downloadVerify remote tok s name = (s1, .ok path)) :
    path = cachePath name
    ∧ ∃ bytes, lookupCache s1.cache name = some bytes
      ∧ (tok = none ∨ ∃ t, tok = some t ∧ digest bytes = t) := by
  unfold downloadVerify at h
  cases hr : remote name with
  | none => simp only [hr] at h; simp at h
  | some bytes =>
    simp only [hr] at h
    cases tok with
    | none =>
      simp only [Prod.mk.injEq, Except.ok.injEq] at h
      exact ⟨h.2.symm, bytes,
        by rw [← h.1]; exact lookupCache_putCache s.cache name bytes,
        Or.inl rfl⟩
    | some t =>
      by_cases hd : digest bytes = t
      · simp only [if_pos hd, Prod.mk.injEq, Except.ok.injEq] at h
        exact ⟨h.2.symm, bytes,
          by rw [← h.1]; exact lookupCache_putCache s.cache name bytes,
          Or.inr ⟨t, rfl, hd⟩⟩
      · simp only [if_neg hd] at h; simp at h

/-- Success characterization of `fetch`: a successful fetch returns the
deterministic cache path, the name is registered, and the final cache
holds bytes for it that satisfy the configured token (when any). -/
theorem fetch_ok_inv (registry : List (String × Option (List Nat)))
    (remote : String → Option (List Nat)) (s s1 : FetchState)
    (name path : String)
    (h : fetch registry remote s name = (s1, .ok path)) :
    path = cachePath name
    ∧ ∃ tok, lookupReg registry name = some tok
      ∧ ∃ bytes, lookupCache s1.cache name = some bytes
        ∧ (tok = none ∨ ∃ t, tok = some t ∧ digest bytes = t) := by
  unfold fetch at h
  cases hreg : lookupReg registry name with
  | none => simp only [hreg] at h; simp at h
  | some tok =>
    simp only [hreg] at h
    cases hc : lookupCache s.cache name with
    | none =>
      simp only [hc] at h
      obtain ⟨hp, bytes, hl, hv⟩ :=
        downloadVerify_ok_inv remote tok s s1 name path h
      exact ⟨hp, tok, rfl, bytes, hl, hv⟩
    | some bytes =>
      simp only [hc] at h
      cases tok with
      | none =>
        simp only [Prod.mk.injEq, Except.ok.injEq] at h
        exact ⟨h.2.symm, none, rfl, bytes, by rw [← h.1]; exact hc,
          Or.inl rfl⟩
      | some t =>
        by_cases hd : digest bytes = t
        · simp only [if_pos hd, Prod.mk.injEq, Except.ok.injEq] at h
          exact ⟨h.2.symm, some t, rfl, bytes, by rw [← h.1]; exact hc,
            Or.inr ⟨t, rfl, hd⟩⟩
        · simp only [if_neg hd] at h
          obtain ⟨hp, bytes2, hl, hv⟩ :=
            downloadVerify_ok_inv remote (some t) s s1 name path h
          exact ⟨hp, some t, rfl, bytes2, hl, hv⟩

/-- A fetch whose name is registered and already verified in the cache
is a pure cache hit: it returns the cache path and leaves the state
untouched. -/
theorem fetch_hit (registry : List (String × Option (List Nat)))
    (remote : String → Option (List Nat)) (s : FetchState) (name : String)
    (tok : Option (List Nat)) (bytes : List Nat)
    (hreg : lookupReg registry name = some tok)
    (hc : lookupCache s.cache name = some bytes)
    (hv : tok = none ∨ ∃ t, tok = some t ∧ digest bytes = t) :
    fetch registry remote s name = (s, .ok (cachePath name)) := by
  unfold fetch
  rcases hv with h0 | ⟨t, ht, hd⟩
  · subst h0; simp only [hreg, hc]
  · subst ht; simp only [hreg, hc, if_pos hd]

/-- C5: `fetch` on a name absent from the registry fails with the
unknown-asset error before any I/O: the cache directory and the network
operation count are returned exactly as they were. -/
theorem C5_fetch_unknown_asset
    (registry : List (String × Option (List Nat)))
    (remote : String → Option (List Nat)) (s : FetchState) (name : String)
    (h : lookupReg registry name = none) :
    fetch registry remote s name = (s, .error .unknownAsset)
    ∧ (fetch registry remote s name).1.cache = s.cache
    ∧ (fetch registry remote s name).1.netOps = s.netOps := by
  have hf : fetch registry remote s name = (s, .error .unknownAsset) := by
    unfold fetch; rw [h]
  exact ⟨hf, by rw [hf], by rw [hf]⟩

/-- C5, witness at a concrete unregistered name against the shipped
registry. -/
theorem C5_fetch_unknown_asset_witness :
    fetch GOODBOY_registry (fun _ => some [1]) ⟨[], 0⟩ "no_such_asset.nc"
      = (⟨[], 0⟩, .error .unknownAsset)
    ∧ (fetch GOODBOY_registry (fun _ => some [1]) ⟨[], 0⟩
        "no_such_asset.nc").1.cache = (⟨[], 0⟩ : FetchState).cache
    ∧ (fetch GOODBOY_registry (fun _ => some [1]) ⟨[], 0⟩
        "no_such_asset.nc").1.netOps = (⟨[], 0⟩ : FetchState).netOps :=
  C5_fetch_unknown_asset GOODBOY_registry (fun _ => some [1]) ⟨[], 0⟩
    "no_such_asset.nc" rfl

/-- C6: `fetch` is idempotent after a success — a second consecutive
call with no external interference is a pure cache hit returning the
same local path with the state unchanged, and the cached file passes
integrity verification (trivially so when no token is configured, since
verification is then disabled). -/
theorem C6_fetch_idempotent
    (registry : List (String × Option (List Nat)))
    (remote : String → Option (List Nat)) (s s1 : FetchState)
    (name path : String)
    (h : fetch registry remote s name = (s1, .ok path)) :
    fetch registry remote s1 name = (s1, .ok path)
    ∧ passesVerification registry s1.cache name = true := by
  obtain ⟨hpath, tok, hreg, bytes, hc, hv⟩ :=
    fetch_ok_inv registry remote s s1 name path h
  subst hpath
  refine ⟨fetch_hit registry remote s1 name tok bytes hreg hc hv, ?_⟩
  unfold passesVerification
  rw [hreg, hc]
  rcases hv with h0 | ⟨t, ht, hd⟩
  · subst h0; rfl
  · subst ht; simp [hd]

/-- C6, witness: a concrete first fetch (cache miss, download) against
the shipped registry, then the idempotent second call. -/
theorem C6_fetch_idempotent_witness :
    fetch GOODBOY_registry (fun _ => some [9])
        ⟨[("tree_cover_density_2018_romania.tif", [9])], 1⟩
        "tree_cover_density_2018_romania.tif"
      = (⟨[("tree_cover_density_2018_romania.tif", [9])], 1⟩,
         .ok (cachePath "tree_cover_density_2018_romania.tif"))
    ∧ passesVerification GOODBOY_registry
        (⟨[("tree_cover_density_2018_romania.tif", [9])], 1⟩ :
          FetchState).cache
        "tree_cover_density_2018_romania.tif" = true :=
  C6_fetch_idempotent GOODBOY_registry (fun _ => some [9]) ⟨[], 0⟩
    ⟨[("tree_cover_density_2018_romania.tif", [9])], 1⟩
    "tree_cover_density_2018_romania.tif"
    (cachePath "tree_cover_density_2018_romania.tif") rfl

/-- Whatever name is looked up in the shipped registry, a hit carries
no integrity token: every registered hash is `None` in the source. -/
theorem GOODBOY_lookup_token_none (name : String)
    (tok : Option (List Nat))
    (h : lookupReg GOODBOY_registry name = some tok) : tok = none := by
  unfold lookupReg at h
  rcases hf : List.find? (fun p => p.1 == name) GOODBOY_registry with _ | pair
  · rw [hf] at h; exact Option.noConfusion h
  · rw [hf] at h
    have hmem : pair ∈ GOODBOY_registry := List.mem_of_find?_eq_some hf
    have hpair : pair.2 = tok := by simpa using h
    rw [← hpair]
    fin_cases hmem <;> rfl

/-- C10: every asset of the shipped registry has an absent integrity
token, so verification is disabled throughout and `fetch` against this
registry can never fail with the integrity error, whatever the remote
serves and whatever is cached. -/
theorem C10_verification_disabled
    (remote : String → Option (List Nat)) (s : FetchState) (name : String) :
    GOODBOY_registry.all (fun p => p.2 == none) = true
    ∧ (fetch GOODBOY_registry remote s name).2 ≠ .error .integrityErr := by
  refine ⟨by decide, ?_⟩
  unfold fetch
  cases hreg : lookupReg GOODBOY_registry name with
  | none => simp
  | some tok =>
    have htok := GOODBOY_lookup_token_none name tok hreg
    subst htok
    cases hc : lookupCache s.cache name with
    | none =>
      unfold downloadVerify
      cases hr : remote name with
      | none => simp
      | some bytes => simp
    | some bytes => simp

/-- C10, witness at a concrete name, remote and state. -/
theorem C10_verification_disabled_witness :
    GOODBOY_registry.all (fun p => p.2 == none) = true
    ∧ (fetch GOODBOY_registry (fun _ => none) ⟨[], 0⟩
        "sentinel2_cube_subset_romania_10m.nc").2
        ≠ .error .integrityErr :=
  C10_verification_disabled (fun _ => none) ⟨[], 0⟩
    "sentinel2_cube_subset_romania_10m.nc"

/-- A concrete remote store used as the C7 witness: one integer-encoded
variable holding the sentinel and a valid value. -/
def zarrEx : ZarrStore :=
  { vars := [("B02", ⟨true, [-9999, 100], 42⟩)],
    scale_factor := 1 / 10000,
    nodata := -9999,
    metadataBytes := 5 }

/-- C7: `germany_zarr` forwards its keyword configuration verbatim to
the remote-store opener at the fixed URL; the open transfers only the
store's metadata (no chunk payloads) while already declaring the full
variable set, and the decoding installed on open maps the integer
no-data sentinel to the missing-value marker and rescales every other
integer by the fixed scale factor, applied to integer-encoded variables
when they are materialized. -/
theorem C7_zarr_open_mask_and_scale (st : ZarrStore)
    (kwargs : List (String × String)) (v : Int) (name : String)
    (zv : ZarrVar) (hv : v ≠ st.nodata)
    (hfind : st.vars.find? (fun p => p.1 == name) = some (name, zv))
    (hint : zv.intEncoded = true) :
    germany_zarr_call kwargs = ⟨"xr.open_zarr", germany_zarr_url, kwargs⟩
    ∧ (open_remote_store st).transferredBytes = st.metadataBytes
    ∧ (open_remote_store st).varNames = st.vars.map Prod.fst
    ∧ maskAndScale st.scale_factor st.nodata st.nodata = none
    ∧ maskAndScale st.scale_factor st.nodata v = some (st.scale_factor * v)
    ∧ materializeVar st name
        = some (zv.values.map (maskAndScale st.scale_factor st.nodata),
                zv.payloadBytes) := by
  refine ⟨rfl, rfl, rfl, ?_, ?_, ?_⟩
  · unfold maskAndScale; rw [if_pos rfl]
  · unfold maskAndScale; rw [if_neg hv]
  · unfold materializeVar; rw [hfind]; simp [hint]

/-- C7, witness at a concrete store, variable and value. -/
theorem C7_zarr_open_mask_and_scale_witness :
    germany_zarr_call [("chunks", "auto")]
      = ⟨"xr.open_zarr", germany_zarr_url, [("chunks", "auto")]⟩
    ∧ (open_remote_store zarrEx).transferredBytes = zarrEx.metadataBytes
    ∧ (open_remote_store zarrEx).varNames = zarrEx.vars.map Prod.fst
    ∧ maskAndScale zarrEx.scale_factor zarrEx.nodata zarrEx.nodata = none
    ∧ maskAndScale zarrEx.scale_factor zarrEx.nodata 100
        = some (zarrEx.scale_factor * 100)
    ∧ materializeVar zarrEx "B02"
        = some ((⟨true, [-9999, 100], 42⟩ : ZarrVar).values.map
                  (maskAndScale zarrEx.scale_factor zarrEx.nodata),
                (⟨true, [-9999, 100], 42⟩ : ZarrVar).payloadBytes) :=
  C7_zarr_open_mask_and_scale zarrEx [("chunks", "auto")] 100 "B02"
    ⟨true, [-9999, 100], 42⟩ (by decide) rfl rfl

/-- C8: each of the three deprecated re-exports appends exactly one
deprecation notice to the warning stream — a non-fatal
`DeprecationWarning` whose message names both the old function and the
new `nrt.data.simulate` path — and otherwise delegates fully: the
argument bundle is passed to the relocated function verbatim and its
result is returned unchanged. -/
theorem C8_deprecation_shims {α β : Type} (delegate : α → β)
    (emitted : List PyWarning) (args : α) :
    make_ts delegate emitted args
      = (emitted ++ [make_ts_warning], delegate args)
    ∧ make_cube_parameters delegate emitted args
      = (emitted ++ [make_cube_parameters_warning], delegate args)
    ∧ make_cube delegate emitted args
      = (emitted ++ [make_cube_warning], delegate args)
    ∧ (make_ts_warning.fatal = false
       ∧ make_ts_warning.category = "DeprecationWarning"
       ∧ listIsInfix "make_ts".data make_ts_warning.message.data = true
       ∧ listIsInfix "nrt.data.simulate".data
           make_ts_warning.message.data = true)
    ∧ (make_cube_parameters_warning.fatal = false
       ∧ make_cube_parameters_warning.category = "DeprecationWarning"
       ∧ listIsInfix "make_cube_parameters".data
           make_cube_parameters_warning.message.data = true
       ∧ listIsInfix "nrt.data.simulate".data
           make_cube_parameters_warning.message.data = true)
    ∧ (make_cube_warning.fatal = false
       ∧ make_cube_warning.category = "DeprecationWarning"
       ∧ listIsInfix "make_cube".data make_cube_warning.message.data = true
       ∧ listIsInfix "nrt.data.simulate".data
           make_cube_warning.message.data = true) :=
  ⟨rfl, rfl, rfl,
   ⟨rfl, rfl, by decide, by decide⟩,
   ⟨rfl, rfl, by decide, by decide⟩,
   ⟨rfl, rfl, by decide, by decide⟩⟩

/-- C9: `mre_crit_table` keeps no shared mutable cache — the module
state it touches is trivial and returned unchanged, and every call's
result is recomputed from the file's current parse outcome alone, so a
second call after any earlier one returns exactly the fresh parse of
whatever the file then holds. -/
theorem C9_no_caching (dataDir : String)
    (fs1 fs2 : String → Option Json) (s : Unit) :
    (mre_crit_table_call s dataDir fs1).1 = s
    ∧ (mre_crit_table_call s dataDir fs1).2
        = mre_crit_table (fs1 (mreCritValTablePath dataDir))
    ∧ (mre_crit_table_call (mre_crit_table_call s dataDir fs1).1
          dataDir fs2).2
        = mre_crit_table (fs2 (mreCritValTablePath dataDir)) :=
  ⟨rfl, rfl, rfl⟩

end NrtData
